import Mathlib

/-!
# Verification of the Replicate chat adapter

Shallow embedding of the Replicate chat-completion adapter
(`providers/replicate/chat.go`, together with the polling loop `pollResult`
of the historical variant kept in the repository) and proofs of the
specification's claims about it.

Conventions of the embedding:
* Go `int` is modelled as `Int`; the one place where 64-bit wrap-around
  could matter (the usage-total addition) goes through `goInt64`.
* Go `float64` sampling parameters (`temperature`, `top_p`, the penalties)
  are modelled as `Float`; the adapter only copies them, it never computes
  with them.
* Mutation through a pointer (`request *types.ChatCompletionRequest` is
  written in place; `h.Usage` is written on the done event) is modelled by
  explicit state passing: the functions return the updated value alongside
  their result.
* Channel sends (`dataChan <- ...`, `errChan <- io.EOF`) are modelled as an
  ordered emission list; the chunk payload is modelled at the
  `ChatCompletionStreamChoice` level (delta text plus finish-reason flag),
  since the JSON envelope produced by `getStreamResponse` adds only the
  per-stream constants (id, model, timestamp).
-/

namespace Replicate

/-- `types.ContentTypeText` of the one-hub types package. -/
def ContentTypeText : String := "text"

/-- `types.ContentTypeImageURL` of the one-hub types package. -/
def ContentTypeImageURL : String := "image_url"

/-- One element of a parsed message content (`types.ChatMessagePart`):
a type tag and the payload fields the adapter reads (`Text`,
`ImageURL.URL`). -/
structure ChatMessagePart where
  type : String
  text : String
  imageURL : String
deriving Repr, DecidableEq

/-- A chat message (`types.ChatCompletionMessage`): role plus its content
parts.  The adapter reads the content only through `ParseContent` (the list
of parts) and, for system messages, `StringContent`. -/
structure ChatCompletionMessage where
  role : String
  parts : List ChatMessagePart
deriving Repr, DecidableEq

/-- `msg.ParseContent()`: the message's content as a list of parts. -/
def parseContent (msg : ChatCompletionMessage) : List ChatMessagePart :=
  msg.parts

/-- The concatenation of the text parts of a content list. -/
def textJoin (parts : List ChatMessagePart) : String :=
  String.join (parts.filterMap fun c =>
    if c.type = ContentTypeText then some c.text else none)

/-- Modelled from the spec: `msg.StringContent()` of the one-hub types
package (not part of the extracted sources).  Per the spec a message's
content is "text and/or image-reference parts" and a system message's
*text* is what gets appended, so `StringContent` is the concatenation of
the message's text parts. -/
def stringContent (msg : ChatCompletionMessage) : String :=
  textJoin msg.parts

/-- The fields of `types.ChatCompletionRequest` that the adapter reads or
writes. -/
structure ChatCompletionRequest where
  model : String
  messages : List ChatCompletionMessage
  maxTokens : Int
  maxCompletionTokens : Int
  temperature : Float
  topP : Float
  presencePenalty : Float
  frequencyPenalty : Float
  stream : Bool

/-- `ReplicateChatRequest`: the backend job-input schema. -/
structure ReplicateChatRequest where
  topP : Float
  maxTokens : Int
  minTokens : Int
  temperature : Float
  systemPrompt : String
  prompt : String
  presencePenalty : Float
  frequencyPenalty : Float
  image : String

/-- `ReplicateRequest[ReplicateChatRequest]`: the submitted job request
(the generic is only ever instantiated at `ReplicateChatRequest` here). -/
structure ReplicateRequest where
  stream : Bool
  input : ReplicateChatRequest

/-- `strings.HasPrefix s pre`, computed structurally on the character
list (equivalent to the byte test for these ASCII markers). -/
def hasPre (s pre : String) : Bool :=
  pre.data.isPrefixOf s.data

/-- `strings.TrimPrefix s pre`: drop `pre` when it is a prefix of `s`,
otherwise return `s` unchanged. -/
def trimPre (s pre : String) : String :=
  if hasPre s pre then ⟨s.data.drop pre.data.length⟩ else s

/-- Whether `strings.TrimSpace s` is empty, i.e. whether every character
of `s` is whitespace — the only use the handler makes of `TrimSpace`. -/
def isBlank (s : String) : Bool :=
  s.data.all Char.isWhitespace

/-- `strings.Repeat s n`: `n` copies of `s` concatenated. -/
def stringsRepeat (s : String) (n : Nat) : String :=
  String.join (List.replicate n s)

/-- The max-tokens resolution steps of `convertFromChatOpenai`
(chat.go lines 70-77), written through the request pointer:
fall back to `MaxCompletionTokens` when `MaxTokens` is unset (0) and the
alias is positive, then raise anything below 1024 to 1024. -/
def resolveRequest (request : ChatCompletionRequest) : ChatCompletionRequest :=
  let request :=
    if request.maxTokens = 0 ∧ 0 < request.maxCompletionTokens then
      { request with maxTokens := request.maxCompletionTokens }
    else request
  if request.maxTokens < 1024 then { request with maxTokens := 1024 } else request

/-- The alias fallback alone (chat.go lines 71-73): the value of
`request.MaxTokens` after the `MaxCompletionTokens` step, before the
floor is applied. -/
def resolvedMaxTokens (request : ChatCompletionRequest) : Int :=
  if request.maxTokens = 0 ∧ 0 < request.maxCompletionTokens then
    request.maxCompletionTokens
  else request.maxTokens

/-- The inner content loop of `convertFromChatOpenai` (chat.go lines
87-94): fold the parts of one non-system message over the accumulated
prompt body and image URL.  Text parts are appended to the prompt; every
image part overwrites the image URL; parts of any other type are
skipped. -/
def contentLoop : String → String → List ChatMessagePart → String × String
  | prompt, imageUrl, [] => (prompt, imageUrl)
  | prompt, imageUrl, content :: rest =>
    if content.type = ContentTypeText then
      contentLoop (prompt ++ content.text) imageUrl rest
    else if content.type = ContentTypeImageURL then
      contentLoop prompt content.imageURL rest
    else
      contentLoop prompt imageUrl rest

/-- The message loop of `convertFromChatOpenai` (chat.go lines 79-96):
accumulates `(systemPrompt, prompt, imageUrl)` over the messages.  A
system message appends `StringContent() ++ "\n"` to the system prompt and
contributes nothing else; any other message contributes
`"<role>: \n"`, then its parts via `contentLoop`, then `"\n"`. -/
def messageLoop : String → String → String → List ChatCompletionMessage →
    String × String × String
  | systemPrompt, prompt, imageUrl, [] => (systemPrompt, prompt, imageUrl)
  | systemPrompt, prompt, imageUrl, msg :: rest =>
    if msg.role = "system" then
      messageLoop (systemPrompt ++ stringContent msg ++ "\n") prompt imageUrl rest
    else
      let inner := contentLoop (prompt ++ msg.role ++ ": \n") imageUrl (parseContent msg)
      messageLoop systemPrompt (inner.1 ++ "\n") inner.2 rest

/-- `convertFromChatOpenai` (chat.go lines 65-114).  The Go function takes
`request` by pointer and writes the resolved `MaxTokens` back through it,
so the embedding returns the built `ReplicateRequest` *and* the request as
it stands after the call. -/
def convertFromChatOpenai (request : ChatCompletionRequest) :
    ReplicateRequest × ChatCompletionRequest :=
  let request := resolveRequest request
  let acc := messageLoop "" "" "" request.messages
  let prompt := acc.2.1 ++ "assistant: \n"
  ({ stream := request.stream
     input := {
       topP := request.topP
       maxTokens := request.maxTokens
       minTokens := 0
       temperature := request.temperature
       systemPrompt := acc.1
       prompt := prompt
       presencePenalty := request.presencePenalty
       frequencyPenalty := request.frequencyPenalty
       image := acc.2.2 } },
   request)

/-- `metrics.{input_token_count, output_token_count}` of a prediction. -/
structure ReplicateMetrics where
  inputTokenCount : Int
  outputTokenCount : Int
deriving Repr, DecidableEq

/-- `ReplicateResponse[[]string]`: the prediction-job snapshot returned by
the backend.  `metrics := none` models a response without a metrics
field. -/
structure ReplicateResponse where
  id : String
  model : String
  status : String
  error : String
  output : Option (List String)
  metrics : Option ReplicateMetrics
deriving Repr, DecidableEq

/-- Modelled from the spec: the `ReplicateResponse` struct declaration
(model.go, not among the extracted sources) carries `Metrics` as a value
field, so a JSON response with the metrics field absent decodes to zero
counts — "usage is reported as all-zero rather than omitted". -/
def metricsOf (response : ReplicateResponse) : ReplicateMetrics :=
  response.metrics.getD { inputTokenCount := 0, outputTokenCount := 0 }

/-- `types.Usage`. -/
structure Usage where
  promptTokens : Int
  completionTokens : Int
  totalTokens : Int
deriving Repr, DecidableEq

/-- Reduction of a mathematical integer to Go's wrapping 64-bit `int`. -/
def goInt64 (z : Int) : Int :=
  (z + 2 ^ 63) % 2 ^ 64 - 2 ^ 63

/-- The usage computed by the non-streaming path, `convertToChatOpenai`
(chat.go lines 146-148): prompt and completion counts straight from the
snapshot's metrics, total their (Go `int`) sum. -/
def nonStreamUsage (response : ReplicateResponse) : Usage :=
  { promptTokens := (metricsOf response).inputTokenCount
    completionTokens := (metricsOf response).outputTokenCount
    totalTokens := goInt64 ((metricsOf response).inputTokenCount +
      (metricsOf response).outputTokenCount) }

/-- The usage computed by the streaming path on the done event,
`HandlerChatStream` (chat.go lines 216-218), from the single-shot status
fetch. -/
def streamDoneUsage (response : ReplicateResponse) : Usage :=
  { promptTokens := (metricsOf response).inputTokenCount
    completionTokens := (metricsOf response).outputTokenCount
    totalTokens := goInt64 ((metricsOf response).inputTokenCount +
      (metricsOf response).outputTokenCount) }

/-- `types.ChatCompletionChoice` as built by `convertToChatOpenai`: the
single assistant choice. -/
structure ChatCompletionChoice where
  index : Int
  role : String
  content : String
  finishReason : String
deriving Repr, DecidableEq

/-- The fields of `types.ChatCompletionResponse` set by
`convertToChatOpenai`. -/
structure ChatCompletionResponse where
  id : String
  object : String
  created : Int
  choices : List ChatCompletionChoice
  model : String
  usage : Usage
deriving Repr, DecidableEq

/-- `convertToChatOpenai` (chat.go lines 116-152).  `now` stands for
`utils.GetTimestamp()`.  The output fragments are concatenated in order
with no separator; the usage written through `p.Usage` and attached to the
response is `nonStreamUsage`. -/
def convertToChatOpenai (response : ReplicateResponse) (now : Int) :
    ChatCompletionResponse :=
  let responseText :=
    match response.output with
    | none => ""
    | some fragments => String.join fragments
  { id := response.id
    object := "chat.completion"
    created := now
    choices := [{ index := 0, role := "assistant", content := responseText,
                  finishReason := "stop" }]
    model := response.model
    usage := nonStreamUsage response }

/-- Outcome of `pollResult` (Go returns `(ReplicateResponse, error)`; the
two failure cases are ordinary errors distinguished by their text). -/
inductive PollOutcome where
  | ok (result : ReplicateResponse)
  | err (msg : String)
deriving Repr, DecidableEq

/-- The loop body of `pollResult`: `fetch k` is the snapshot returned by
the `k`-th status fetch (0-based); the first component counts fetches
already made, the second is the remaining attempt budget.  Each iteration
performs one fetch, returns on "succeeded", fails on "failed"/"canceled"
with the backend error text, and otherwise sleeps one second (no effect on
the modelled state) and retries.  The result carries the total number of
fetch calls made. -/
def pollLoop (fetch : Nat → ReplicateResponse) :
    Nat → Nat → PollOutcome × Nat
  | fetched, 0 => (.err "polling timeout after 30 attempts", fetched)
  | fetched, remaining + 1 =>
    let result := fetch fetched
    if result.status = "succeeded" then
      (.ok result, fetched + 1)
    else if result.status = "failed" ∨ result.status = "canceled" then
      (.err ("prediction failed or canceled: " ++ result.error), fetched + 1)
    else
      pollLoop fetch (fetched + 1) remaining

/-- `pollResult` (part_001 lines 343-387): up to `maxAttempts = 30`
fetches starting from attempt 0. -/
def pollResult (fetch : Nat → ReplicateResponse) : PollOutcome × Nat :=
  pollLoop fetch 0 30

/-- A status on which `pollResult` keeps polling. -/
def nonTerminal (response : ReplicateResponse) : Prop :=
  response.status ≠ "succeeded" ∧ response.status ≠ "failed" ∧
    response.status ≠ "canceled"

instance (response : ReplicateResponse) : Decidable (nonTerminal response) := by
  unfold nonTerminal; infer_instance

/-- Mutable state of `ReplicateStreamHandler` (chat.go lines 16-25):
the pending blank-line buffer, the event accumulation buffer (reset on
every `event:` header, never read), and the current-event bookkeeping. -/
structure StreamState where
  buffer : List String
  eventBuffer : String
  isEvent : Bool
  currentEvent : String
deriving Repr, DecidableEq

/-- The handler as constructed in `CreateChatCompletionStream`
(chat.go lines 197-203): empty buffer, zero-valued event state. -/
def initStreamState : StreamState :=
  { buffer := [], eventBuffer := "", isEvent := false, currentEvent := "" }

/-- One observable emission of the stream handler: a chunk sent on
`dataChan` (delta text plus whether `FinishReason = stop` is set), or the
`io.EOF` end-of-stream signal sent on `errChan`. -/
inductive StreamEmit where
  | chunk (content : String) (finish : Bool)
  | eof
deriving Repr, DecidableEq

/-- End-of-event check at the bottom of `HandlerChatStream`
(chat.go lines 314-317): a whitespace-only line
(`len(strings.TrimSpace(line)) == 0`) while inside an event clears the
event state. -/
def eventEnd (h : StreamState) (line : String) : StreamState :=
  if isBlank line = true ∧ h.isEvent = true then
    { h with isEvent := false, currentEvent := "" }
  else h

/-- The pending-blank flush (chat.go lines 221-235 and 283-297): a buffer
of `n` blank markers is converted to `n - 1` newline characters, emitted
as a single chunk only when that count is positive. -/
def flushBuffer (buffer : List String) : List StreamEmit :=
  if 0 < buffer.length then
    if 0 < buffer.length - 1 then
      [.chunk (stringsRepeat "\n" (buffer.length - 1)) false]
    else []
  else []

/-- `HandlerChatStream` (chat.go lines 208-320) on one incoming line.
`fetch` is the snapshot `getPredictionResponse` returns for the done
event's single-shot status fetch; `u` is the `h.Usage` record.  The result
is the updated handler state, the updated usage, the ordered emissions,
and whether the handler closed the stream (`*rawLine = StreamClosed`). -/
def handlerChatStream (fetch : ReplicateResponse) (h : StreamState)
    (u : Usage) (line : String) :
    StreamState × Usage × List StreamEmit × Bool :=
  if hasPre line "event: done" = true then
    let u := streamDoneUsage fetch
    let flush := flushBuffer h.buffer
    let h := if 0 < h.buffer.length then { h with buffer := [] } else h
    (h, u, flush ++ [.chunk "" true, .eof], true)
  else if hasPre line "event: " = true then
    let h := { h with isEvent := true,
                      currentEvent := trimPre line "event: ",
                      eventBuffer := "" }
    (h, u, [], false)
  else if hasPre line "data: " = false ∧ h.isEvent = false then
    (h, u, [], false)
  else if hasPre line "data: " = true ∧ h.currentEvent = "output" ∧
      isBlank (trimPre line "data: ") = true then
    ({ h with buffer := h.buffer ++ [""] }, u, [], false)
  else if hasPre line "data: " = true ∧ h.currentEvent = "output" then
    let content := trimPre line "data: "
    let flush := flushBuffer h.buffer
    let h := if 0 < h.buffer.length then { h with buffer := [] } else h
    (eventEnd h line, u, flush ++ [.chunk content false], false)
  else
    (eventEnd h line, u, [], false)

/-- Modelled from the spec: the stream driver `requester.RequestStream`
(common/requester, not among the extracted sources) feeds lines to the
handler one at a time and stops once the handler marks the stream closed
(`*rawLine = requester.StreamClosed`) — "No further lines are processed
after this point."  Returns the concatenation of all emissions. -/
def runHandler (fetch : ReplicateResponse) :
    StreamState → Usage → List String → List StreamEmit
  | _, _, [] => []
  | h, u, line :: rest =>
    let step := handlerChatStream fetch h u line
    if step.2.2.2 = true then step.2.2.1
    else step.2.2.1 ++ runHandler fetch step.1 step.2.1 rest

/-- The resolved max-output-tokens value after the floor, i.e. the value
`convertFromChatOpenai` leaves in `request.MaxTokens`. -/
def flooredResolved (request : ChatCompletionRequest) : Int :=
  if resolvedMaxTokens request < 1024 then 1024 else resolvedMaxTokens request

/-- Stated from the spec's words (§4.1): the prompt body is, per
non-system message in order, `"<role>: \n"` followed by the concatenation
of its text parts and a trailing newline, with the literal
`"assistant: \n"` cue appended after all messages. -/
def specPromptBody (messages : List ChatCompletionMessage) : String :=
  String.join (messages.filterMap fun msg =>
    if msg.role = "system" then none
    else some (msg.role ++ ": \n" ++ textJoin msg.parts ++ "\n")) ++
    "assistant: \n"

/-- Stated from the spec's words (§4.1): each system message's text
followed by a newline, concatenated in order. -/
def specSystemPrompt (messages : List ChatCompletionMessage) : String :=
  String.join (messages.filterMap fun msg =>
    if msg.role = "system" then some (stringContent msg ++ "\n") else none)

/-- Stated from the claim's words (C5): scan *all* messages in original
order regardless of role; every image reference encountered overwrites
the kept one (last wins). -/
def specLastImageAnyRole (messages : List ChatCompletionMessage) : String :=
  messages.foldl (fun img msg =>
    msg.parts.foldl (fun img c =>
      if c.type = ContentTypeImageURL then c.imageURL else img) img) ""

/-- The image-retention rule the source actually implements: scan the
non-system messages in original order (system messages are skipped
entirely, content unparsed); the last image reference encountered wins. -/
def lastImageSkipSystem (messages : List ChatCompletionMessage) : String :=
  messages.foldl (fun img msg =>
    if msg.role = "system" then img
    else msg.parts.foldl (fun img c =>
      if c.type = ContentTypeImageURL then c.imageURL else img) img) ""

/-- A content part holding only an image reference. -/
def imagePartOf (url : String) : ChatMessagePart :=
  { type := ContentTypeImageURL, text := "", imageURL := url }

/-- A content part holding only text. -/
def textPartOf (s : String) : ChatMessagePart :=
  { type := ContentTypeText, text := s, imageURL := "" }

/-- A request with no messages and every numeric field zeroed: the base
for the concrete examples below. -/
def baseRequest : ChatCompletionRequest :=
  { model := "llama3", messages := [], maxTokens := 0,
    maxCompletionTokens := 0, temperature := 0.0, topP := 0.0,
    presencePenalty := 0.0, frequencyPenalty := 0.0, stream := false }

/-- A request whose only alias field is set (primary unset). -/
def aliasRequest : ChatCompletionRequest :=
  { baseRequest with maxCompletionTokens := 500 }

/-- A request whose primary max-tokens field is already above the floor. -/
def bigTokenRequest : ChatCompletionRequest :=
  { baseRequest with maxTokens := 2048 }

/-- A user message carrying image `u1` followed by an assistant message
carrying image `u2`. -/
def twoImageRequest (u1 u2 : String) : ChatCompletionRequest :=
  { baseRequest with messages :=
      [{ role := "user", parts := [imagePartOf u1] },
       { role := "assistant", parts := [imagePartOf u2] }] }

/-- A user message carrying image `http://a` followed by a *system*
message carrying image `http://b`. -/
def sysImageRequest : ChatCompletionRequest :=
  { baseRequest with messages :=
      [{ role := "user", parts := [imagePartOf "http://a"] },
       { role := "system", parts := [imagePartOf "http://b"] }] }

/-- A snapshot still in progress. -/
def processingResp : ReplicateResponse :=
  { id := "p1", model := "m", status := "processing", error := "",
    output := none, metrics := none }

/-- A succeeded snapshot. -/
def succeededResp : ReplicateResponse :=
  { id := "p1", model := "m", status := "succeeded", error := "",
    output := some ["ok"], metrics := some ⟨3, 4⟩ }

/-- A fetch sequence that reports "processing" five times and then
"succeeded". -/
def succeedAtSix (n : Nat) : ReplicateResponse :=
  if n < 5 then processingResp else succeededResp

/-- A fetch sequence that never leaves "processing". -/
def stuckFetch (_ : Nat) : ReplicateResponse :=
  processingResp

/-- A snapshot with no metrics field, used where the stream examples need
some fetch result. -/
def emptyResp : ReplicateResponse :=
  { id := "p0", model := "m", status := "", error := "",
    output := none, metrics := none }

/-- A terminal snapshot with input = 12 and output = 34 tokens. -/
def metricsResp : ReplicateResponse :=
  { id := "p6", model := "m", status := "succeeded", error := "",
    output := some ["hi"], metrics := some ⟨12, 34⟩ }

/-- Another terminal snapshot with input = 12 and output = 34 tokens, for
the stream-termination examples. -/
def doneFetchResp : ReplicateResponse :=
  { id := "p7", model := "m", status := "succeeded", error := "",
    output := some [], metrics := some ⟨12, 34⟩ }

/-- A zeroed usage record (`p.Usage` before any write). -/
def usage0 : Usage :=
  { promptTokens := 0, completionTokens := 0, totalTokens := 0 }

theorem resolveRequest_eq (request : ChatCompletionRequest) :
    resolveRequest request =
      { request with maxTokens := flooredResolved request } := by
  unfold resolveRequest flooredResolved resolvedMaxTokens
  by_cases h1 : request.maxTokens = 0 ∧ 0 < request.maxCompletionTokens
  · rw [if_pos h1, if_pos h1]
    by_cases h2 : request.maxCompletionTokens < 1024
    · rw [if_pos h2, if_pos h2]
    · rw [if_neg h2, if_neg h2]
  · rw [if_neg h1, if_neg h1]
    by_cases h2 : request.maxTokens < 1024
    · rw [if_pos h2, if_pos h2]
    · rw [if_neg h2, if_neg h2]

theorem flooredResolved_ge (request : ChatCompletionRequest) :
    1024 ≤ flooredResolved request := by
  unfold flooredResolved
  split <;> omega

theorem convert_maxTokens_eq (request : ChatCompletionRequest) :
    (convertFromChatOpenai request).1.input.maxTokens = flooredResolved request := by
  show (resolveRequest request).maxTokens = flooredResolved request
  rw [resolveRequest_eq]

theorem convert_snd_eq (request : ChatCompletionRequest) :
    (convertFromChatOpenai request).2 = resolveRequest request := rfl

/-- Claim C1: the translated job input's max-tokens is at least 1024; when
the resolved value before flooring is below 1024 (0 and negatives
included) the output is exactly 1024, otherwise it is the resolved value;
and the `MaxCompletionTokens` alias is the resolved value exactly when the
primary `MaxTokens` is 0 and the alias is positive. -/
theorem maxTokens_floor_spec (request : ChatCompletionRequest) :
    1024 ≤ (convertFromChatOpenai request).1.input.maxTokens
    ∧ (resolvedMaxTokens request < 1024 →
        (convertFromChatOpenai request).1.input.maxTokens = 1024)
    ∧ (1024 ≤ resolvedMaxTokens request →
        (convertFromChatOpenai request).1.input.maxTokens =
          resolvedMaxTokens request)
    ∧ (request.maxTokens = 0 ∧ 0 < request.maxCompletionTokens →
        resolvedMaxTokens request = request.maxCompletionTokens)
    ∧ (¬ (request.maxTokens = 0 ∧ 0 < request.maxCompletionTokens) →
        resolvedMaxTokens request = request.maxTokens) := by
  rw [convert_maxTokens_eq]
  refine ⟨flooredResolved_ge request, ?_, ?_, ?_, ?_⟩
  · intro h; unfold flooredResolved; rw [if_pos h]
  · intro h; unfold flooredResolved; rw [if_neg (by omega)]
  · intro h; unfold resolvedMaxTokens; rw [if_pos h]
  · intro h; unfold resolvedMaxTokens; rw [if_neg h]

/-- Witness for C1 at a concrete request: alias 500 with primary unset
resolves to 500, which is floored to 1024. -/
theorem maxTokens_floor_spec_witness :
    resolvedMaxTokens aliasRequest = 500 ∧ resolvedMaxTokens aliasRequest < 1024
    ∧ (convertFromChatOpenai aliasRequest).1.input.maxTokens = 1024 :=
  ⟨by decide, by decide,
    (maxTokens_floor_spec aliasRequest).2.1 (by decide)⟩

/-- Counterexample to claim C8: `convertFromChatOpenai` writes the
resolved max-tokens back through the request pointer, so the caller's
request is mutated — on a request with `MaxTokens = 0` the field reads
1024 after the call. -/
theorem convert_not_pure_counterexample :
    baseRequest.maxTokens = 0
    ∧ (convertFromChatOpenai baseRequest).2.maxTokens = 1024
    ∧ (convertFromChatOpenai baseRequest).2 ≠ baseRequest := by
  refine ⟨rfl, rfl, fun h => ?_⟩
  have h2 := congrArg ChatCompletionRequest.maxTokens h
  have h3 : (convertFromChatOpenai baseRequest).2.maxTokens = (1024 : Int) := rfl
  have h4 : baseRequest.maxTokens = (0 : Int) := rfl
  rw [h3, h4] at h2
  exact absurd h2 (by decide)

/-- Claim C8 as amended: the translation performs no I/O and always
succeeds (it is a total function in the embedding), but it resolves
max-tokens *in place*: after the call the request's `MaxTokens` holds the
floored resolved value and every other field is unchanged; when the
incoming `MaxTokens` is already at or above the floor the request is left
fully unchanged. -/
theorem convert_frame_spec (request : ChatCompletionRequest) :
    (convertFromChatOpenai request).2 =
      { request with maxTokens := flooredResolved request }
    ∧ (1024 ≤ request.maxTokens →
        (convertFromChatOpenai request).2 = request) := by
  constructor
  · rw [convert_snd_eq, resolveRequest_eq]
  · intro h
    rw [convert_snd_eq, resolveRequest_eq]
    have h1 : flooredResolved request = request.maxTokens := by
      unfold flooredResolved resolvedMaxTokens
      rw [if_neg (by omega), if_neg (by omega)]
    rw [h1]

/-- Witness for C8 (amended) at a concrete request already above the
floor: the request is left unchanged. -/
theorem convert_frame_spec_witness :
    1024 ≤ bigTokenRequest.maxTokens
    ∧ (convertFromChatOpenai bigTokenRequest).2 = bigTokenRequest :=
  ⟨by decide, (convert_frame_spec bigTokenRequest).2 (by decide)⟩

theorem flooredResolved_of_ge (r : ChatCompletionRequest)
    (h : 1024 ≤ r.maxTokens) : flooredResolved r = r.maxTokens := by
  unfold flooredResolved resolvedMaxTokens
  have h1 : ¬(r.maxTokens = 0 ∧ 0 < r.maxCompletionTokens) := by
    rintro ⟨h0, -⟩; omega
  rw [if_neg h1]
  rw [if_neg (show ¬(r.maxTokens < 1024) by omega)]

theorem resolveRequest_idem (request : ChatCompletionRequest) :
    resolveRequest (resolveRequest request) = resolveRequest request := by
  rw [resolveRequest_eq request,
    resolveRequest_eq { request with maxTokens := flooredResolved request },
    flooredResolved_of_ge { request with maxTokens := flooredResolved request }
      (by exact flooredResolved_ge request)]

/-- Claim C9: translating the same request twice — the second call seeing
the request state the first one left behind — yields identical
`ReplicateRequest` values (and an identical final request state). -/
theorem convert_idempotent (request : ChatCompletionRequest) :
    (convertFromChatOpenai ((convertFromChatOpenai request).2)).1 =
      (convertFromChatOpenai request).1
    ∧ (convertFromChatOpenai ((convertFromChatOpenai request).2)).2 =
      (convertFromChatOpenai request).2 := by
  have h : convertFromChatOpenai ((convertFromChatOpenai request).2) =
      convertFromChatOpenai request := by
    show convertFromChatOpenai (resolveRequest request) = convertFromChatOpenai request
    unfold convertFromChatOpenai
    rw [resolveRequest_idem]
  exact ⟨congrArg Prod.fst h, congrArg Prod.snd h⟩

theorem pollLoop_step (fetch : Nat → ReplicateResponse) (fetched r : Nat) :
    pollLoop fetch fetched (r + 1) =
      if (fetch fetched).status = "succeeded" then
        (.ok (fetch fetched), fetched + 1)
      else if (fetch fetched).status = "failed" ∨
          (fetch fetched).status = "canceled" then
        (.err ("prediction failed or canceled: " ++ (fetch fetched).error),
          fetched + 1)
      else pollLoop fetch (fetched + 1) r := rfl

theorem pollLoop_skip (fetch : Nat → ReplicateResponse) :
    ∀ (m i r : Nat), (∀ j, j < m → nonTerminal (fetch (i + j))) → m ≤ r →
      pollLoop fetch i r = pollLoop fetch (i + m) (r - m) := by
  intro m
  induction m with
  | zero => intro i r _ _; rfl
  | succ n ih =>
    intro i r hnt hle
    obtain ⟨r', rfl⟩ : ∃ r', r = r' + 1 := ⟨r - 1, by omega⟩
    have h0 := hnt 0 (by omega)
    rw [Nat.add_zero] at h0
    rw [pollLoop_step, if_neg h0.1,
      if_neg (by rintro (hf | hc); exacts [h0.2.1 hf, h0.2.2 hc])]
    rw [ih (i + 1) r' (fun j hj => by
        have := hnt (j + 1) (by omega)
        rwa [show i + (j + 1) = i + 1 + j by omega] at this) (by omega),
      show i + 1 + n = i + (n + 1) by omega,
      show r' - n = r' + 1 - (n + 1) by omega]

/-- Claim C2: `pollResult` is a bounded retry loop — if the first `k - 1`
fetches are non-terminal and the `k`-th (k ≤ 30) reports "succeeded", it
returns that snapshot after exactly `k` fetches; if the first terminal
fetch reports "failed" or "canceled", it fails with an error carrying the
backend error text after exactly `k` fetches; and if all 30 fetches are
non-terminal it fails with the polling-timeout error after exactly 30
fetches.  (The one-second sleep between attempts has no effect on the
modelled state.) -/
theorem pollResult_spec (fetch : Nat → ReplicateResponse) :
    (∀ k, 1 ≤ k → k ≤ 30 →
      (∀ j, j < k - 1 → nonTerminal (fetch j)) →
      (fetch (k - 1)).status = "succeeded" →
      pollResult fetch = (.ok (fetch (k - 1)), k))
    ∧ (∀ k, 1 ≤ k → k ≤ 30 →
      (∀ j, j < k - 1 → nonTerminal (fetch j)) →
      (fetch (k - 1)).status = "failed" ∨ (fetch (k - 1)).status = "canceled" →
      pollResult fetch =
        (.err ("prediction failed or canceled: " ++ (fetch (k - 1)).error), k))
    ∧ ((∀ j, j < 30 → nonTerminal (fetch j)) →
      pollResult fetch = (.err "polling timeout after 30 attempts", 30)) := by
  have skip := pollLoop_skip fetch
  refine ⟨?_, ?_, ?_⟩
  · intro k hk1 hk30 hnt hs
    unfold pollResult
    rw [skip (k - 1) 0 30 (fun j hj => by simpa using hnt j hj) (by omega)]
    rw [Nat.zero_add, show 30 - (k - 1) = (30 - k) + 1 by omega]
    rw [pollLoop_step, if_pos hs, show k - 1 + 1 = k by omega]
  · intro k hk1 hk30 hnt hs
    unfold pollResult
    rw [skip (k - 1) 0 30 (fun j hj => by simpa using hnt j hj) (by omega)]
    rw [Nat.zero_add, show 30 - (k - 1) = (30 - k) + 1 by omega]
    have hns : ¬(fetch (k - 1)).status = "succeeded" := by
      rcases hs with h | h <;> rw [h] <;> decide
    rw [pollLoop_step, if_neg hns, if_pos hs, show k - 1 + 1 = k by omega]
  · intro hnt
    unfold pollResult
    rw [skip 30 0 30 (fun j hj => by simpa using hnt j hj) (by omega)]
    rfl

/-- Witness for C2: a job that reports "processing" five times and then
"succeeded" is returned after exactly six fetches; a job stuck in
"processing" yields the timeout error after exactly 30 fetches. -/
theorem pollResult_spec_witness :
    pollResult succeedAtSix = (.ok succeededResp, 6)
    ∧ pollResult stuckFetch = (.err "polling timeout after 30 attempts", 30) := by
  constructor
  · have h := (pollResult_spec succeedAtSix).1 6 (by omega) (by omega)
      (by decide) (by decide)
    simpa using h
  · exact (pollResult_spec stuckFetch).2.2 (by decide)

theorem goInt64_eq_of_bounds (z : Int) (h0 : 0 ≤ z) (h1 : z < 2 ^ 63) :
    goInt64 z = z := by
  unfold goInt64
  omega

/-- Claim C6: the streaming done-event path and the non-streaming path
compute identical usage from the same terminal snapshot; for a snapshot
with metrics `(i, o)` (any realistic, non-wrapping token counts) the
attached usage is exactly `(i, o, i + o)`; a snapshot with no metrics
field yields all-zero usage; and `convertToChatOpenai` always attaches the
usage to the response (the usage field is never omitted). -/
theorem usage_total_spec :
    (∀ response : ReplicateResponse,
      nonStreamUsage response = streamDoneUsage response)
    ∧ (∀ (response : ReplicateResponse) (i o : Int),
        response.metrics = some ⟨i, o⟩ → 0 ≤ i → 0 ≤ o → i + o < 2 ^ 63 →
        nonStreamUsage response =
          { promptTokens := i, completionTokens := o, totalTokens := i + o })
    ∧ (∀ response : ReplicateResponse, response.metrics = none →
        nonStreamUsage response =
          { promptTokens := 0, completionTokens := 0, totalTokens := 0 })
    ∧ (∀ (response : ReplicateResponse) (now : Int),
        (convertToChatOpenai response now).usage = nonStreamUsage response) := by
  refine ⟨fun _ => rfl, ?_, ?_, fun _ _ => rfl⟩
  · intro response i o hm hi ho hio
    unfold nonStreamUsage metricsOf
    rw [hm]
    simp only [Option.getD_some]
    rw [goInt64_eq_of_bounds (i + o) (by omega) hio]
  · intro response hm
    unfold nonStreamUsage metricsOf goInt64
    rw [hm]
    simp only [Option.getD_none]
    norm_num

/-- Witness for C6: input 12 and output 34 tokens give total 46. -/
theorem usage_total_spec_witness :
    nonStreamUsage metricsResp =
      { promptTokens := 12, completionTokens := 34, totalTokens := 46 } := by
  have h := usage_total_spec.2.1 metricsResp 12 34 rfl (by decide) (by decide)
    (by decide)
  simpa using h

theorem runHandler_nil (fetch : ReplicateResponse) (h : StreamState)
    (u : Usage) : runHandler fetch h u [] = [] := rfl

theorem runHandler_cons (fetch : ReplicateResponse) (h : StreamState)
    (u : Usage) (line : String) (rest : List String) :
    runHandler fetch h u (line :: rest) =
      (let step := handlerChatStream fetch h u line
       if step.2.2.2 = true then step.2.2.1
       else step.2.2.1 ++ runHandler fetch step.1 step.2.1 rest) := rfl

theorem step_event_output (fetch : ReplicateResponse) (h : StreamState)
    (u : Usage) :
    handlerChatStream fetch h u "event: output" =
      ({ h with isEvent := true, currentEvent := "output", eventBuffer := "" },
        u, [], false) := by
  unfold handlerChatStream
  rw [if_neg (by decide), if_pos (by decide)]
  rfl

theorem step_blank (fetch : ReplicateResponse) (h : StreamState) (u : Usage)
    (hcur : h.currentEvent = "output") :
    handlerChatStream fetch h u "data: " =
      ({ h with buffer := h.buffer ++ [""] }, u, [], false) := by
  unfold handlerChatStream
  rw [if_neg (by decide), if_neg (by decide),
    if_neg (fun hc => absurd hc.1 (by decide)),
    if_pos ⟨by decide, hcur, by decide⟩]

theorem step_content_hello (fetch : ReplicateResponse) (h : StreamState)
    (u : Usage) (hcur : h.currentEvent = "output") :
    handlerChatStream fetch h u "data: hello" =
      (eventEnd (if 0 < h.buffer.length then { h with buffer := [] } else h)
          "data: hello",
        u, flushBuffer h.buffer ++ [.chunk "hello" false], false) := by
  unfold handlerChatStream
  rw [if_neg (by decide), if_neg (by decide),
    if_neg (fun hc => absurd hc.1 (by decide)),
    if_neg (fun hc => absurd hc.2.2 (by decide)),
    if_pos ⟨by decide, hcur⟩]
  rfl

theorem step_done (fetch : ReplicateResponse) (h : StreamState) (u : Usage)
    (line : String) (hl : hasPre line "event: done" = true) :
    handlerChatStream fetch h u line =
      ((if 0 < h.buffer.length then { h with buffer := [] } else h),
        streamDoneUsage fetch,
        flushBuffer h.buffer ++ [.chunk "" true, .eof], true) := by
  unfold handlerChatStream
  rw [if_pos hl]

theorem runHandler_done (fetch : ReplicateResponse) (h : StreamState)
    (u : Usage) (line : String) (rest : List String)
    (hl : hasPre line "event: done" = true) :
    runHandler fetch h u (line :: rest) =
      flushBuffer h.buffer ++ [.chunk "" true, .eof] := by
  rw [runHandler_cons, step_done fetch h u line hl]
  rfl

theorem eventEnd_of_not_blank (h : StreamState) (line : String)
    (hl : isBlank line = false) : eventEnd h line = h := by
  unfold eventEnd
  rw [if_neg (fun hc => absurd (hl.symm.trans hc.1) (by decide))]

theorem strJoin_cons (a : String) (l : List String) :
    String.join (a :: l) = a ++ String.join l := by
  apply String.ext
  simp

theorem stringsRepeat_ne_empty (n : Nat) (hn : 0 < n) :
    stringsRepeat "\n" n ≠ "" := by
  obtain ⟨k, rfl⟩ : ∃ k, n = k + 1 := ⟨n - 1, by omega⟩
  intro he
  have hd := congrArg String.data he
  rw [stringsRepeat, List.replicate_succ, strJoin_cons] at hd
  simp [String.data_append, show ("\n").data = ['\n'] from rfl] at hd

theorem flushBuffer_eq (b : List String) :
    flushBuffer b =
      if 2 ≤ b.length then
        [.chunk (stringsRepeat "\n" (b.length - 1)) false]
      else [] := by
  unfold flushBuffer
  by_cases h1 : 0 < b.length
  · rw [if_pos h1]
    by_cases h2 : 0 < b.length - 1
    · rw [if_pos h2, if_pos (by omega)]
    · rw [if_neg h2, if_neg (by omega)]
  · rw [if_neg h1, if_neg (by omega)]

theorem flushBuffer_no_empty (b : List String) :
    StreamEmit.chunk "" false ∉ flushBuffer b := by
  rw [flushBuffer_eq]
  split
  · intro hmem
    rw [List.mem_singleton] at hmem
    have he : stringsRepeat "\n" (b.length - 1) = "" :=
      (((StreamEmit.chunk.injEq _ _ _ _).mp hmem).1).symm
    exact stringsRepeat_ne_empty _ (by omega) he
  · simp

theorem runHandler_blanks (fetch : ReplicateResponse) (u : Usage) :
    ∀ (k : Nat) (b : List String) (e : String) (rest : List String),
      runHandler fetch ⟨b, e, true, "output"⟩ u
          (List.replicate k "data: " ++ rest) =
        runHandler fetch ⟨b ++ List.replicate k "", e, true, "output"⟩ u
          rest := by
  intro k
  induction k with
  | zero => intro b e rest; simp
  | succ n ih =>
    intro b e rest
    rw [List.replicate_succ, List.cons_append, runHandler_cons,
      step_blank fetch ⟨b, e, true, "output"⟩ u rfl]
    show ([] : List StreamEmit) ++
        runHandler fetch ⟨b ++ [""], e, true, "output"⟩ u
          (List.replicate n "data: " ++ rest) = _
    rw [List.nil_append, ih (b ++ [""]) e rest, List.append_assoc,
      List.singleton_append, ← List.replicate_succ]

theorem runHandler_cons_open (fetch : ReplicateResponse) (h : StreamState)
    (u : Usage) (line : String) (rest : List String)
    (hstep : (handlerChatStream fetch h u line).2.2.2 = false) :
    runHandler fetch h u (line :: rest) =
      (handlerChatStream fetch h u line).2.2.1 ++
        runHandler fetch (handlerChatStream fetch h u line).1
          (handlerChatStream fetch h u line).2.1 rest := by
  rw [runHandler_cons]
  dsimp only
  rw [hstep]
  rfl

/-- Claim C10: a single blank data marker (N = 1) produces no chunk at
all — never a chunk with empty text content: when the lone blank precedes
a non-blank payload the payload's chunk is the next chunk emitted, when it
precedes the done event the terminal chunk is, and in general the handler
never emits a non-terminal chunk whose content is the empty string. -/
theorem single_blank_marker_spec :
    (∀ (fetch : ReplicateResponse) (u : Usage),
      runHandler fetch initStreamState u
          ["event: output", "data: ", "data: hello"] =
        [.chunk "hello" false])
    ∧ (∀ (fetch : ReplicateResponse) (u : Usage),
      runHandler fetch initStreamState u
          ["event: output", "data: ", "event: done"] =
        [.chunk "" true, .eof])
    ∧ (∀ (fetch : ReplicateResponse) (h : StreamState) (u : Usage)
        (line : String),
        StreamEmit.chunk "" false ∉ (handlerChatStream fetch h u line).2.2.1) := by
  refine ⟨fun fetch u => rfl, fun fetch u => rfl, ?_⟩
  intro fetch h u line
  unfold handlerChatStream
  by_cases h1 : hasPre line "event: done" = true
  · rw [if_pos h1]
    show StreamEmit.chunk "" false ∉
      flushBuffer h.buffer ++ [.chunk "" true, .eof]
    intro hmem
    rcases List.mem_append.mp hmem with hm | hm
    · exact flushBuffer_no_empty _ hm
    · simp at hm
  · rw [if_neg h1]
    by_cases h2 : hasPre line "event: " = true
    · rw [if_pos h2]; simp
    · rw [if_neg h2]
      by_cases h3 : hasPre line "data: " = false ∧ h.isEvent = false
      · rw [if_pos h3]; simp
      · rw [if_neg h3]
        by_cases h4 : hasPre line "data: " = true ∧
            h.currentEvent = "output" ∧ isBlank (trimPre line "data: ") = true
        · rw [if_pos h4]; simp
        · rw [if_neg h4]
          by_cases h5 : hasPre line "data: " = true ∧ h.currentEvent = "output"
          · rw [if_pos h5]
            show StreamEmit.chunk "" false ∉
              flushBuffer h.buffer ++ [.chunk (trimPre line "data: ") false]
            intro hmem
            rcases List.mem_append.mp hmem with hm | hm
            · exact flushBuffer_no_empty _ hm
            · rw [List.mem_singleton] at hm
              have hc : trimPre line "data: " = "" :=
                (((StreamEmit.chunk.injEq _ _ _ _).mp hm).1).symm
              exact h4 ⟨h5.1, h5.2, by rw [hc]; decide⟩
          · rw [if_neg h5]; simp

/-- Witness for C10: at a concrete input line the handler emits no
empty-content non-terminal chunk. -/
theorem single_blank_marker_spec_witness :
    StreamEmit.chunk "" false ∉
      (handlerChatStream emptyResp initStreamState usage0 "data: x").2.2.1 :=
  single_blank_marker_spec.2.2 emptyResp initStreamState usage0 "data: x"

/-- Counterexample to claim C3 at N = 1: a single blank marker followed by
a non-blank payload yields only the payload's chunk; no coalesced chunk
(of 1 − 1 = 0 newlines) precedes it, whereas the claim asserts one
coalesced chunk per blank run for every N ≥ 1. -/
theorem blank_run_counterexample :
    runHandler emptyResp initStreamState usage0
        ["event: output", "data: ", "data: hello"] =
      [.chunk "hello" false]
    ∧ ¬ ∃ c, runHandler emptyResp initStreamState usage0
        ["event: output", "data: ", "data: hello"] =
      [.chunk c false, .chunk "hello" false] := by
  refine ⟨rfl, ?_⟩
  rintro ⟨c, hc⟩
  have h1 : runHandler emptyResp initStreamState usage0
      ["event: output", "data: ", "data: hello"] =
    [.chunk "hello" false] := rfl
  rw [h1] at hc
  simp at hc

/-- Claim C3 as amended: inside an output event, a run of N ≥ 1 blank data
markers emits no chunk per blank; when N ≥ 2 exactly one chunk carrying
N − 1 newline characters is emitted immediately before the next non-blank
payload's chunk (or before the terminal chunk); when N = 1 the run is
dropped without emitting any chunk. -/
theorem blank_run_coalesce_spec (N : Nat) (_hN : 1 ≤ N)
    (fetch : ReplicateResponse) (u : Usage) :
    runHandler fetch initStreamState u
        ("event: output" :: (List.replicate N "data: " ++ ["data: hello"])) =
      (if 2 ≤ N then [.chunk (stringsRepeat "\n" (N - 1)) false] else []) ++
        [.chunk "hello" false]
    ∧ runHandler fetch initStreamState u
        ("event: output" :: (List.replicate N "data: " ++ ["event: done"])) =
      (if 2 ≤ N then [.chunk (stringsRepeat "\n" (N - 1)) false] else []) ++
        [.chunk "" true, .eof] := by
  constructor
  · rw [runHandler_cons_open fetch initStreamState u "event: output" _
      (by rw [step_event_output]), step_event_output]
    show ([] : List StreamEmit) ++
      runHandler fetch ⟨[], "", true, "output"⟩ u
        (List.replicate N "data: " ++ ["data: hello"]) = _
    rw [List.nil_append,
      show (⟨[], "", true, "output"⟩ : StreamState) =
        ⟨[] ++ List.replicate 0 "", "", true, "output"⟩ by simp,
      show List.replicate N "data: " ++ ["data: hello"] =
        List.replicate N "data: " ++ ["data: hello"] from rfl]
    rw [show runHandler fetch ⟨[] ++ List.replicate 0 "", "", true, "output"⟩ u
        (List.replicate N "data: " ++ ["data: hello"]) =
      runHandler fetch ⟨[] ++ List.replicate N "", "", true, "output"⟩ u
        ["data: hello"] from by
        have := runHandler_blanks fetch u N [] "" ["data: hello"]
        simpa using this]
    rw [List.nil_append,
      runHandler_cons_open fetch ⟨List.replicate N "", "", true, "output"⟩ u
        "data: hello" [] (by rw [step_content_hello _ _ _ rfl]),
      step_content_hello _ _ _ rfl]
    show (flushBuffer (List.replicate N "") ++ [.chunk "hello" false]) ++
      runHandler fetch _ u [] = _
    rw [runHandler_nil, List.append_nil, flushBuffer_eq,
      List.length_replicate]
  · rw [runHandler_cons_open fetch initStreamState u "event: output" _
      (by rw [step_event_output]), step_event_output]
    show ([] : List StreamEmit) ++
      runHandler fetch ⟨[], "", true, "output"⟩ u
        (List.replicate N "data: " ++ ["event: done"]) = _
    rw [List.nil_append]
    rw [show runHandler fetch ⟨[], "", true, "output"⟩ u
        (List.replicate N "data: " ++ ["event: done"]) =
      runHandler fetch ⟨[] ++ List.replicate N "", "", true, "output"⟩ u
        ["event: done"] from by
        have := runHandler_blanks fetch u N [] "" ["event: done"]
        simpa using this]
    rw [List.nil_append, runHandler_done _ _ _ _ _ (by decide)]
    show flushBuffer (List.replicate N "") ++ _ = _
    rw [flushBuffer_eq, List.length_replicate]

/-- Witness for C3 (amended) at N = 3: one chunk of two newlines, then
the chunk `hello`. -/
theorem blank_run_coalesce_spec_witness :
    runHandler emptyResp initStreamState usage0
        ("event: output" :: (List.replicate 3 "data: " ++ ["data: hello"])) =
      [.chunk (stringsRepeat "\n" 2) false, .chunk "hello" false] := by
  have h := (blank_run_coalesce_spec 3 (by decide) emptyResp usage0).1
  simpa using h

/-- Counterexample to claim C4: with a single pending blank marker, the
done event emits only the terminal chunk — the pending buffer is
discarded without being flushed as a chunk, whereas the claim asserts the
pending buffer is always flushed as one chunk. -/
theorem done_flush_counterexample :
    runHandler doneFetchResp initStreamState usage0
        ["event: output", "data: ", "event: done"] =
      [.chunk "" true, .eof]
    ∧ ¬ ∃ c, runHandler doneFetchResp initStreamState usage0
        ["event: output", "data: ", "event: done"] =
      [.chunk c false, .chunk "" true, .eof] := by
  refine ⟨rfl, ?_⟩
  rintro ⟨c, hc⟩
  have h1 : runHandler doneFetchResp initStreamState usage0
      ["event: output", "data: ", "event: done"] =
    [.chunk "" true, .eof] := rfl
  rw [h1] at hc
  simp at hc

/-- Claim C4 as amended: an `event: done` line terminates the stream from
any state — a pending blank buffer of at least two markers is flushed as
one chunk of (count − 1) newlines (a single pending marker is discarded
without a chunk), the single-shot status fetch supplies the final usage
with total = input + output, exactly one terminal chunk (finish-reason
stop, empty text) is emitted as the last chunk before the end-of-stream
signal, and no chunk is emitted for any line after it. -/
theorem done_terminates_spec (fetch : ReplicateResponse) (h : StreamState)
    (u : Usage) (line : String) (rest : List String) (i o : Int)
    (hl : hasPre line "event: done" = true)
    (hm : fetch.metrics = some ⟨i, o⟩) (hi : 0 ≤ i) (ho : 0 ≤ o)
    (hio : i + o < 2 ^ 63) :
    runHandler fetch h u (line :: rest) =
      (if 2 ≤ h.buffer.length then
        [.chunk (stringsRepeat "\n" (h.buffer.length - 1)) false]
      else []) ++ [.chunk "" true, .eof]
    ∧ (handlerChatStream fetch h u line).2.1 =
      { promptTokens := i, completionTokens := o, totalTokens := i + o } := by
  constructor
  · rw [runHandler_done fetch h u line rest hl, flushBuffer_eq]
  · rw [step_done fetch h u line hl]
    show streamDoneUsage fetch = _
    unfold streamDoneUsage metricsOf
    rw [hm]
    simp only [Option.getD_some]
    rw [goInt64_eq_of_bounds (i + o) (by omega) hio]

/-- Witness for C4 (amended): a done event arriving with one pending
blank marker emits only the terminal chunk (buffer discarded), later
lines produce nothing, and the fetched metrics 12/34 give usage total
46. -/
theorem done_terminates_spec_witness :
    runHandler doneFetchResp ⟨[""], "", true, "output"⟩ usage0
        ["event: done", "data: x"] =
      [.chunk "" true, .eof]
    ∧ (handlerChatStream doneFetchResp ⟨[""], "", true, "output"⟩ usage0
        "event: done").2.1 =
      { promptTokens := 12, completionTokens := 34, totalTokens := 46 } := by
  have h := done_terminates_spec doneFetchResp ⟨[""], "", true, "output"⟩
    usage0 "event: done" ["data: x"] 12 34 (by decide) rfl (by decide)
    (by decide) (by decide)
  refine ⟨?_, by simpa using h.2⟩
  have h1 := h.1
  simpa using h1

theorem strAppend_assoc (a b c : String) : a ++ b ++ c = a ++ (b ++ c) := by
  apply String.ext
  simp [String.data_append]

theorem contentLoop_cons (pr img : String) (c : ChatMessagePart)
    (rest : List ChatMessagePart) :
    contentLoop pr img (c :: rest) =
      if c.type = ContentTypeText then
        contentLoop (pr ++ c.text) img rest
      else if c.type = ContentTypeImageURL then
        contentLoop pr c.imageURL rest
      else
        contentLoop pr img rest := rfl

theorem messageLoop_cons (sys pr img : String) (msg : ChatCompletionMessage)
    (rest : List ChatCompletionMessage) :
    messageLoop sys pr img (msg :: rest) =
      if msg.role = "system" then
        messageLoop (sys ++ stringContent msg ++ "\n") pr img rest
      else
        messageLoop sys
          ((contentLoop (pr ++ msg.role ++ ": \n") img (parseContent msg)).1
            ++ "\n")
          (contentLoop (pr ++ msg.role ++ ": \n") img (parseContent msg)).2
          rest := rfl

theorem contentLoop_img : ∀ (parts : List ChatMessagePart) (pr img : String),
    (contentLoop pr img parts).2 =
      parts.foldl (fun img c =>
        if c.type = ContentTypeImageURL then c.imageURL else img) img := by
  intro parts
  induction parts with
  | nil => intro pr img; rfl
  | cons c rest ih =>
    intro pr img
    rw [List.foldl_cons, contentLoop_cons]
    by_cases ht : c.type = ContentTypeText
    · rw [if_pos ht, ih]
      congr 1
      rw [if_neg (show ¬c.type = ContentTypeImageURL by rw [ht]; decide)]
    · rw [if_neg ht]
      by_cases hi : c.type = ContentTypeImageURL
      · rw [if_pos hi, ih]
        congr 1
        rw [if_pos hi]
      · rw [if_neg hi, ih]
        congr 1
        rw [if_neg hi]

theorem messageLoop_img : ∀ (msgs : List ChatCompletionMessage)
    (sys pr img : String),
    (messageLoop sys pr img msgs).2.2 =
      msgs.foldl (fun img msg =>
        if msg.role = "system" then img
        else msg.parts.foldl (fun img c =>
          if c.type = ContentTypeImageURL then c.imageURL else img) img)
        img := by
  intro msgs
  induction msgs with
  | nil => intro sys pr img; rfl
  | cons msg rest ih =>
    intro sys pr img
    rw [List.foldl_cons, messageLoop_cons]
    by_cases hs : msg.role = "system"
    · rw [if_pos hs, ih]
      congr 1
      rw [if_pos hs]
    · rw [if_neg hs, ih, contentLoop_img]
      congr 1
      rw [if_neg hs]
      rfl

theorem resolveRequest_messages (request : ChatCompletionRequest) :
    (resolveRequest request).messages = request.messages := by
  rw [resolveRequest_eq]

/-- Claim C5 as amended: the kept image is the last image reference
encountered while scanning the *non-system* messages in original order —
system messages are skipped whole, so an image in a system message is
ignored; in particular, for an image in a user message M1 and one in a
later assistant message M2, the translated image is M2's URL. -/
theorem image_last_nonsystem_spec :
    (∀ request : ChatCompletionRequest,
      (convertFromChatOpenai request).1.input.image =
        lastImageSkipSystem request.messages)
    ∧ (∀ u1 u2 : String,
      (convertFromChatOpenai (twoImageRequest u1 u2)).1.input.image = u2) := by
  have hmain : ∀ request : ChatCompletionRequest,
      (convertFromChatOpenai request).1.input.image =
        lastImageSkipSystem request.messages := by
    intro request
    show (messageLoop "" "" "" (resolveRequest request).messages).2.2 = _
    rw [resolveRequest_messages, messageLoop_img]
    rfl
  exact ⟨hmain, fun u1 u2 => by rw [hmain]; rfl⟩

/-- Counterexample to claim C5: when the *last* image lives in a system
message, the code keeps the earlier user image, not the last one
encountered over all messages regardless of role. -/
theorem image_any_role_counterexample :
    (convertFromChatOpenai sysImageRequest).1.input.image = "http://a"
    ∧ specLastImageAnyRole sysImageRequest.messages = "http://b"
    ∧ (convertFromChatOpenai sysImageRequest).1.input.image ≠
      specLastImageAnyRole sysImageRequest.messages := by
  refine ⟨rfl, rfl, ?_⟩
  intro hc
  have h1 : (convertFromChatOpenai sysImageRequest).1.input.image =
    "http://a" := rfl
  have h2 : specLastImageAnyRole sysImageRequest.messages = "http://b" := rfl
  rw [h1, h2] at hc
  exact absurd hc (by decide)

theorem textJoin_nil : textJoin [] = "" := rfl

theorem textJoin_cons_text (c : ChatMessagePart) (rest : List ChatMessagePart)
    (ht : c.type = ContentTypeText) :
    textJoin (c :: rest) = c.text ++ textJoin rest := by
  simp [textJoin, List.filterMap_cons, ht, strJoin_cons]

theorem textJoin_cons_other (c : ChatMessagePart) (rest : List ChatMessagePart)
    (ht : ¬c.type = ContentTypeText) :
    textJoin (c :: rest) = textJoin rest := by
  simp [textJoin, List.filterMap_cons, ht]

theorem contentLoop_prompt : ∀ (parts : List ChatMessagePart) (pr img : String),
    (contentLoop pr img parts).1 = pr ++ textJoin parts := by
  intro parts
  induction parts with
  | nil => intro pr img; exact (String.append_empty pr).symm
  | cons c rest ih =>
    intro pr img
    rw [contentLoop_cons]
    by_cases ht : c.type = ContentTypeText
    · rw [if_pos ht, ih, textJoin_cons_text c rest ht, strAppend_assoc]
    · rw [if_neg ht, textJoin_cons_other c rest ht]
      by_cases hi : c.type = ContentTypeImageURL
      · rw [if_pos hi, ih]
      · rw [if_neg hi, ih]

theorem messageLoop_sys : ∀ (msgs : List ChatCompletionMessage)
    (sys pr img : String),
    (messageLoop sys pr img msgs).1 = sys ++ specSystemPrompt msgs := by
  intro msgs
  induction msgs with
  | nil => intro sys pr img; exact (String.append_empty sys).symm
  | cons msg rest ih =>
    intro sys pr img
    rw [messageLoop_cons]
    by_cases hs : msg.role = "system"
    · rw [if_pos hs, ih]
      simp [specSystemPrompt, List.filterMap_cons, hs, strJoin_cons,
        strAppend_assoc]
    · rw [if_neg hs, ih]
      simp [specSystemPrompt, List.filterMap_cons, hs]

theorem messageLoop_prompt : ∀ (msgs : List ChatCompletionMessage)
    (sys pr img : String),
    (messageLoop sys pr img msgs).2.1 =
      pr ++ String.join (msgs.filterMap fun msg =>
        if msg.role = "system" then none
        else some (msg.role ++ ": \n" ++ textJoin msg.parts ++ "\n")) := by
  intro msgs
  induction msgs with
  | nil => intro sys pr img; exact (String.append_empty pr).symm
  | cons msg rest ih =>
    intro sys pr img
    rw [messageLoop_cons]
    by_cases hs : msg.role = "system"
    · rw [if_pos hs, ih]
      simp [List.filterMap_cons, hs]
    · rw [if_neg hs, ih, contentLoop_prompt]
      simp [List.filterMap_cons, hs, strJoin_cons, strAppend_assoc]
      rfl

/-- Claim C7: the prompt body is built by iterating messages in order —
system messages contribute their text plus a newline to the separate
system prompt and nothing to the body; every other message contributes
`"<role>: \n"`, the concatenation of its text parts, and a trailing
newline; and the literal `"assistant: \n"` cue ends the body. -/
theorem prompt_body_spec (request : ChatCompletionRequest) :
    (convertFromChatOpenai request).1.input.prompt =
      specPromptBody request.messages
    ∧ (convertFromChatOpenai request).1.input.systemPrompt =
      specSystemPrompt request.messages := by
  constructor
  · show (messageLoop "" "" "" (resolveRequest request).messages).2.1 ++
      "assistant: \n" = _
    rw [resolveRequest_messages, messageLoop_prompt, String.empty_append]
    rfl
  · show (messageLoop "" "" "" (resolveRequest request).messages).1 = _
    rw [resolveRequest_messages, messageLoop_sys, String.empty_append]

end Replicate
